import Mathlib

/-!
# mlik: HTTP-to-HTTPS redirector with an ACME challenge pass-through

A shallow embedding of `main.go`:

* `createHandler`: the request handler (redirect, or forward to the upstream client);
* `checkBackend`, `createDialContext`: the egress guard of the outbound transport;
* `backendCidrFlag`: the callback of the `backend-cidr` command line flag.

The Go standard library pieces the program calls (header maps, the response
writer contract, `net.SplitHostPort`, `net.ParseIP`, `net.ParseCIDR`,
`(*net.IPNet).Contains`) are modelled as executable functions. The URL
serialiser `(*url.URL).String` and the content type detector
`http.DetectContentType` are parameters of the handler, and the dial function
is described by the dial it asks the `net.Dialer` for.
-/

namespace Mlik

/-! ## Header maps (`net/http.Header`, `net/textproto.MIMEHeader`) -/

/-- A header map, Go's `map[string][]string`, as an association list. For the
header of an upstream response the order of the list is the order in which
`range` visits the keys: Go leaves that order unspecified, and every statement
below holds for every list, hence for every order. -/
abbrev Header := List (String × List String)

/-- The bytes `textproto` accepts in a header field name (RFC 7230 token
characters): letters, digits and ``!#$%&'*+-.^_`|~``. -/
def validHeaderFieldByte (c : Char) : Bool :=
  c.isAlphanum || [33, 35, 36, 37, 38, 39, 42, 43, 45, 46, 94, 95, 96, 124, 126].contains c.toNat

/-- The rewriting loop of `textproto.canonicalMIMEHeaderKey`: upper case for the
first letter and for a letter after a dash, lower case for the others. -/
def canonicalizeChars : Bool → List Char → List Char
  | _, [] => []
  | upper, c :: cs =>
    let c1 := if upper && c.isLower then c.toUpper
              else if !upper && c.isUpper then c.toLower
              else c
    c1 :: canonicalizeChars (c1 == '-') cs

/-- Model of `textproto.CanonicalMIMEHeaderKey` (`http.CanonicalHeaderKey`): a
key that holds a byte that is no token character (a space included) comes back
unchanged, any other key comes back in canonical case. -/
def CanonicalMIMEHeaderKey (s : String) : String :=
  if s.toList.all validHeaderFieldByte then String.mk (canonicalizeChars true s.toList) else s

namespace Header

/-- Map index `h[k]`: the values stored under `k`, `nil` when the key is absent. -/
def lookup : Header → String → List String
  | [], _ => []
  | (k1, vs) :: rest, k => if k1 = k then vs else lookup rest k

/-- Map assignment `h[k] = vs`. -/
def store : Header → String → List String → Header
  | [], k, vs => [(k, vs)]
  | (k1, vs1) :: rest, k, vs => if k1 = k then (k, vs) :: rest else (k1, vs1) :: store rest k vs

/-- Map deletion `delete(h, k)`. -/
def erase : Header → String → Header
  | [], _ => []
  | (k1, vs1) :: rest, k => if k1 = k then erase rest k else (k1, vs1) :: erase rest k

/-- `Header.Add`: append `value` to the values of the canonical form of `key`. -/
def Add (h : Header) (key value : String) : Header :=
  h.store (CanonicalMIMEHeaderKey key) (h.lookup (CanonicalMIMEHeaderKey key) ++ [value])

/-- `Header.Set`: replace the values of the canonical form of `key` by `[value]`. -/
def Set (h : Header) (key value : String) : Header :=
  h.store (CanonicalMIMEHeaderKey key) [value]

/-- `Header.Del`. -/
def Del (h : Header) (key : String) : Header :=
  h.erase (CanonicalMIMEHeaderKey key)

/-- `Header.Values`: all values of the canonical form of `key`. -/
def Values (h : Header) (key : String) : List String :=
  h.lookup (CanonicalMIMEHeaderKey key)

/-- `Header.Get`: the first value of the canonical form of `key`, `""` when there is none. -/
def Get (h : Header) (key : String) : String :=
  match h.lookup (CanonicalMIMEHeaderKey key) with
  | [] => ""
  | v :: _ => v

/-- Key presence, Go's `_, ok := h[k]`. -/
def has (h : Header) (k : String) : Bool :=
  h.any (fun kv => kv.1 = k)

end Header

/-! ## The response writer contract (`http.ResponseWriter`) -/

def StatusOK : Int := 200
def StatusSwitchingProtocols : Int := 101
def StatusNoContent : Int := 204
def StatusNotModified : Int := 304
def StatusPermanentRedirect : Int := 308
def StatusBadGateway : Int := 502

/-- The codes `checkWriteHeaderCode` lets through: three digits. For any other
code `WriteHeader` panics. -/
def validWriteHeaderCode (code : Int) : Bool :=
  decide (100 ≤ code ∧ code ≤ 999)

/-- The codes `WriteHeader` sends as an interim response, after which the
response is still to be committed: 1xx other than 101. -/
def informational (code : Int) : Bool :=
  decide (100 ≤ code ∧ code ≤ 199 ∧ code ≠ StatusSwitchingProtocols)

/-- The codes `WriteHeader` commits the response with: 101 and 200 to 999. -/
def finalStatus (code : Int) : Bool :=
  validWriteHeaderCode code && !informational code

/-- `bodyAllowedForStatus`: no body goes with 1xx, 204 and 304. -/
def bodyAllowedForStatus (status : Int) : Bool :=
  !decide (100 ≤ status ∧ status ≤ 199) && status != StatusNoContent && status != StatusNotModified

/-- State of a response writer of the `net/http` server, as the documentation
of `http.ResponseWriter` describes it. `header` is the live map `w.Header()`
returns. The first `WriteHeader` with a final code, or the first `Write` when
none came before, commits the response: it fixes `status` and takes `sent`, the
copy of the header map that goes to the caller with that status. Later changes
of `header` and later `WriteHeader` calls do not reach the caller. A
`WriteHeader` with an informational code sends an interim response (`interim`,
with the header map as it is then, less `Content-Length` and
`Transfer-Encoding`) and commits nothing. `body` is the data
written, `calls` the codes of the `WriteHeader` calls of the handler that
returned, in order. What the server does below this interface when it frames
the response on the wire (`Date`, `Content-Length`, `Transfer-Encoding`,
`Connection`, the headers it withholds from a response without body) is not
part of the state. -/
structure ResponseWriter where
  header : Header
  status : Option Int
  sent : Header
  interim : List (Int × Header)
  body : List String
  calls : List Int
deriving DecidableEq, Repr

/-- The content type sniffing of the first data written: when the header map
committed has no `Content-Type` key, and neither a `Content-Encoding` nor a
`Transfer-Encoding` value, the response goes out with the `Content-Type` that
`http.DetectContentType` finds for the data. -/
def sniffed (detectContentType : String → String) (h : Header) (data : String) : Header :=
  if !h.has "Content-Type" && (h.Get "Content-Encoding").isEmpty
      && (h.Get "Transfer-Encoding").isEmpty
  then h.store "Content-Type" [detectContentType data] else h

namespace ResponseWriter

/-- A writer no handler has touched yet. -/
def fresh : ResponseWriter :=
  { header := [], status := none, sent := [], interim := [], body := [], calls := [] }

/-- `w.WriteHeader(code)`. The result is `.error` with the panic value when the
call panics. A call on a committed response is superfluous and changes
nothing, whatever the code. -/
def WriteHeader (w : ResponseWriter) (code : Int) : Except String ResponseWriter :=
  match w.status with
  | some _ => .ok { w with calls := w.calls ++ [code] }
  | none =>
    if !validWriteHeaderCode code then .error ("invalid WriteHeader code " ++ toString code)
    else if informational code then
      .ok { w with
              interim := w.interim
                ++ [(code, (w.header.erase "Content-Length").erase "Transfer-Encoding")]
              calls := w.calls ++ [code] }
    else .ok { w with status := some code, sent := w.header, calls := w.calls ++ [code] }

/-- `w.Write(data)`: an implicit `WriteHeader(http.StatusOK)` when nothing was
committed before; then the data, unless it is empty or the status allows no
body (the error `http.ErrBodyNotAllowed`). The first data written fixes the
content type the response goes out with when its header map has none. -/
def Write (detectContentType : String → String) (w : ResponseWriter) (data : String) :
    ResponseWriter × Option String :=
  let w : ResponseWriter :=
    match w.status with
    | some _ => w
    | none => { w with status := some StatusOK, sent := w.header }
  if data.isEmpty then (w, none)
  else if !bodyAllowedForStatus (w.status.getD StatusOK) then
    (w, some "http: request method or response status code does not allow body")
  else
    ({ w with
        sent := if w.body.isEmpty then sniffed detectContentType w.sent data else w.sent
        body := w.body ++ [data] }, none)

/-- `w.Header().Add(key, value)`. -/
def headerAdd (w : ResponseWriter) (key value : String) : ResponseWriter :=
  { w with header := w.header.Add key value }

/-- `w.Header().Set(key, value)`. -/
def headerSet (w : ResponseWriter) (key value : String) : ResponseWriter :=
  { w with header := w.header.Set key value }

/-- `w.Header().Del(key)`. -/
def headerDel (w : ResponseWriter) (key : String) : ResponseWriter :=
  { w with header := w.header.Del key }

end ResponseWriter

/-- `http.Error(w, error, code)`: drop `Content-Length`, set the plain-text
content type headers, write the status, then the message and a newline. The
result is `.error` when `WriteHeader` panics. -/
def httpError (detectContentType : String → String) (w : ResponseWriter) (error : String)
    (code : Int) : Except String ResponseWriter :=
  let w := w.headerDel "Content-Length"
  let w := w.headerSet "Content-Type" "text/plain; charset=utf-8"
  let w := w.headerSet "X-Content-Type-Options" "nosniff"
  match w.WriteHeader code with
  | .error value => .error value
  | .ok w => .ok (w.Write detectContentType (error ++ "\n")).1

/-! ## Requests, responses and the client -/

/-- `url.Userinfo`: the user name and password of a URL. -/
structure Userinfo where
  username : String
  password : String := ""
  passwordSet : Bool := false
deriving DecidableEq, Repr

/-- `url.URL`, field by field. -/
structure URL where
  Scheme : String := ""
  Opaque : String := ""
  User : Option Userinfo := none
  Host : String := ""
  Path : String := ""
  RawPath : String := ""
  OmitHost : Bool := false
  ForceQuery : Bool := false
  RawQuery : String := ""
  Fragment : String := ""
  RawFragment : String := ""
deriving DecidableEq, Repr

/-- An inbound `http.Request`. `Body` is the content of the body stream. -/
structure Request where
  Method : String
  URL : URL
  Header : Header
  Body : String
deriving DecidableEq, Repr

/-- A body stream: the non-final results of `Read`, and the error that ends
the stream when it is not `io.EOF`. -/
structure Body where
  chunks : List String
  err : Option String
deriving DecidableEq, Repr

/-- An upstream `http.Response`; `Body = none` is Go's `resp.Body == nil`. -/
structure Response where
  StatusCode : Int
  Header : Header
  Body : Option Body
deriving DecidableEq, Repr

/-- What `Do` returns: a response and a nil error, or a non-nil error (with
which Go may still hand back a response). -/
inductive DoResult where
  | success (resp : Response)
  | failure (resp : Option Response) (err : String)
deriving DecidableEq, Repr

/-- The interface `httpClient`: its one method `Do`. -/
abbrev httpClient := Request → DoResult

/-! ## The handler -/

def acmeChallengePath : String := "/.well-known/acme-challenge"

/-- `strings.HasPrefix(s, p)`. -/
def HasPrefix (s p : String) : Bool :=
  p.toList.isPrefixOf s.toList

/-- What one run of the handler did: the response writer, the request as the
handler leaves it, the requests `client.Do` was called with, whether
`r.Body.Close()` was called, the messages handed to the logger, and the value
the handler panicked with, if it did (the server then drops the connection). -/
structure Outcome where
  w : ResponseWriter
  r : Request
  doCalls : List Request
  bodyClosed : Bool
  logs : List String
  panic : Option String
deriving DecidableEq, Repr

/-- The loop `for key, valList := range resp.Header` of `createHandler`. -/
def copyHeader (w : ResponseWriter) (h : Header) : ResponseWriter :=
  h.foldl (fun w kv => kv.2.foldl (fun w headerValue => w.headerAdd kv.1 headerValue) w) w

/-- The loop of `io.Copy(w, body)` over the reads of the body: every non-empty
read is written to `w`, and the first write error ends the copy. -/
def ioCopyLoop (detectContentType : String → String) :
    ResponseWriter → List String → ResponseWriter × Option String
  | w, [] => (w, none)
  | w, chunk :: rest =>
    if chunk.isEmpty then ioCopyLoop detectContentType w rest
    else
      match w.Write detectContentType chunk with
      | (w, some err) => (w, some err)
      | (w, none) => ioCopyLoop detectContentType w rest

/-- `io.Copy(w, body)`: the result is the error of the first failed write, or
else the error that ended the stream, if any. -/
def ioCopy (detectContentType : String → String) (w : ResponseWriter) (b : Body) :
    ResponseWriter × Option String :=
  match ioCopyLoop detectContentType w b.chunks with
  | (w, some err) => (w, some err)
  | (w, none) => (w, b.err)

/-- Lines 96 to 99 of `main.go`: the redirect steps. -/
def redirectSteps (urlString : URL → String) (o : Outcome) : Outcome :=
  let redirectUrl : URL := { o.r.URL with Scheme := "https" }
  let o := { o with r := { o.r with URL := redirectUrl } }
  let w := o.w.headerSet "Location" (urlString redirectUrl)
  match w.WriteHeader StatusPermanentRedirect with
  | .error value => { o with w := w, panic := some value }
  | .ok w => { o with w := w }

/-- Lines 84 to 93 of `main.go`: the header copy and the body copy. -/
def relaySteps (detectContentType : String → String) (o : Outcome) (resp : Response) : Outcome :=
  let o := { o with w := copyHeader o.w resp.Header }
  match resp.Body with
  | none => o
  | some body =>
    match ioCopy detectContentType o.w body with
    | (w, none) => { o with w := w }
    | (w, some _) =>
      { o with w := w, logs := o.logs ++ ["failed to write response from upstream to client"] }

/-- Line 94 of `main.go`: `w.WriteHeader(resp.StatusCode)`. The Boolean says
whether the handler ends here, which it does only by a panic. -/
def statusStep (o : Outcome) (code : Int) : Outcome × Bool :=
  match o.w.WriteHeader code with
  | .error value => ({ o with panic := some value }, true)
  | .ok w => ({ o with w := w }, false)

/-- Lines 77 to 94 of `main.go`: the body of the `if` on the ACME prefix. The
Boolean says whether the handler ends in the branch (by `return` or by a
panic) or goes on behind the `if`. -/
def acmeSteps (client : httpClient) (detectContentType : String → String) (o : Outcome) :
    Outcome × Bool :=
  let o := { o with doCalls := o.doCalls ++ [o.r] }
  match client o.r with
  | .failure _ _ =>
    let o := { o with logs := o.logs ++ ["failed to send request to upstream"] }
    let o := { o with bodyClosed := true }
    match httpError detectContentType o.w "Upstream error" StatusBadGateway with
    | .error value => ({ o with panic := some value }, true)
    | .ok w => ({ o with w := w }, true)
  | .success resp => statusStep (relaySteps detectContentType o resp) resp.StatusCode

/-- The function `createHandler(client, logger)` returns, run on the writer `w`
and the request `r`. `urlString` stands for `(*url.URL).String`, and
`detectContentType` for `http.DetectContentType`, which the writer uses. -/
def createHandler (client : httpClient) (urlString : URL → String)
    (detectContentType : String → String) (w : ResponseWriter) (r : Request) : Outcome :=
  let o : Outcome :=
    { w := w, r := r, doCalls := [], bodyClosed := false, logs := [], panic := none }
  if HasPrefix r.URL.Path acmeChallengePath then
    match acmeSteps client detectContentType o with
    | (o, true) => o
    | (o, false) => redirectSteps urlString o
  else
    redirectSteps urlString o

/-- A serialiser that follows `(*url.URL).String` step by step and leaves the
escaping of the components out, for the examples: it is `String` itself on a
URL whose components hold no byte that needs escaping. -/
def simpleURLString (u : URL) : String :=
  let scheme := if u.Scheme ≠ "" then u.Scheme ++ ":" else ""
  let query := if u.ForceQuery ∨ u.RawQuery ≠ "" then "?" ++ u.RawQuery else ""
  let fragment := if u.Fragment ≠ "" then "#" ++ u.Fragment else ""
  if u.Opaque ≠ "" then scheme ++ u.Opaque ++ query ++ fragment
  else
    let authority :=
      if u.Scheme ≠ "" ∨ u.Host ≠ "" ∨ u.User.isSome then
        if u.OmitHost ∧ u.Host = "" ∧ u.User.isNone then ""
        else
          (if u.Host ≠ "" ∨ u.Path ≠ "" ∨ u.User.isSome then "//" else "")
            ++ (match u.User with
                | none => ""
                | some ui =>
                  ui.username ++ (if ui.passwordSet then ":" ++ ui.password else "") ++ "@")
            ++ u.Host
      else ""
    let slash := if u.Path ≠ "" ∧ u.Path.toList.head? ≠ some '/' ∧ u.Host ≠ "" then "/" else ""
    let dot :=
      if scheme ++ authority ++ slash = "" ∧ (u.Path.toList.takeWhile (· ≠ '/')).contains ':'
      then "./" else ""
    scheme ++ authority ++ slash ++ dot ++ u.Path ++ query ++ fragment

/-! ## Addresses (`net`, `net/netip`) -/

deriving instance DecidableEq for Except

/-- `net.IP`: a slice of bytes, 4 of them for IPv4 and 16 for IPv6. -/
abbrev IP := List Nat

/-- `net.IPMask`. -/
abbrev IPMask := List Nat

/-- `net.IPNet`: a network number and its mask. -/
structure IPNet where
  IP : IP
  Mask : IPMask
deriving DecidableEq, Repr

/-- `bytealg.IndexByteString`: the position of the first `c`. -/
def IndexByte : List Char → Char → Option Nat
  | [], _ => none
  | x :: xs, c => if x = c then some 0 else (IndexByte xs c).map (· + 1)

/-- `bytealg.LastIndexByteString`: the position of the last `c`. -/
def LastIndexByte : List Char → Char → Option Nat
  | [], _ => none
  | x :: xs, c =>
    match LastIndexByte xs c with
    | some i => some (i + 1)
    | none => if x = c then some 0 else none

/-- `(*net.AddrError).Error`: the address leads the text unless it is empty. -/
def addrErr (addr why : String) : String :=
  if addr = "" then why else "address " ++ addr ++ ": " ++ why

/-- Model of `net.SplitHostPort`: the port follows the last colon; a host that
holds a colon stands in square brackets, which are stripped. -/
def SplitHostPort (hostport : String) : Except String (String × String) :=
  let s := hostport.toList
  let missingPort := "missing port in address"
  let tooManyColons := "too many colons in address"
  match LastIndexByte s ':' with
  | none => .error (addrErr hostport missingPort)
  | some i =>
    let bracket : Except String (List Char × Nat × Nat) :=
      if s.head? = some '[' then
        match IndexByte s ']' with
        | none => .error (addrErr hostport "missing ']' in address")
        | some e =>
          if e + 1 = s.length then .error (addrErr hostport missingPort)
          else if e + 1 = i then .ok ((s.drop 1).take (e - 1), 1, e + 1)
          else if s.get? (e + 1) = some ':' then .error (addrErr hostport tooManyColons)
          else .error (addrErr hostport missingPort)
      else
        let host := s.take i
        if (IndexByte host ':').isSome then .error (addrErr hostport tooManyColons)
        else .ok (host, 0, 0)
    match bracket with
    | .error err => .error err
    | .ok (host, j, k) =>
      if (IndexByte (s.drop j) '[').isSome then
        .error (addrErr hostport "unexpected '[' in address")
      else if (IndexByte (s.drop k) ']').isSome then
        .error (addrErr hostport "unexpected ']' in address")
      else .ok (String.mk host, String.mk (s.drop (i + 1)))

/-- The loop of `netip.parseIPv4Fields` over the rest of the text: `prev` is
the byte before (none at the start), `val` and `digLen` describe the octet
being read, `fields` are the octets read so far. No leading zero, no octet
above 255, exactly four octets. -/
def parseIPv4Loop : List Char → Option Char → Nat → Nat → List Nat → Option (List Nat)
  | [], _, val, _, fields => if fields.length < 3 then none else some (fields ++ [val])
  | c :: cs, prev, val, digLen, fields =>
    if c.isDigit then
      if digLen = 1 ∧ val = 0 then none
      else
        let val := val * 10 + (c.toNat - 48)
        if val > 255 then none else parseIPv4Loop cs (some c) val (digLen + 1) fields
    else if c = '.' then
      if prev = none ∨ cs = [] ∨ prev = some '.' then none
      else if fields.length = 3 then none
      else parseIPv4Loop cs (some c) 0 0 (fields ++ [val])
    else none

/-- `netip.parseIPv4Fields` on a whole text: its four octets. -/
def parseIPv4Fields (s : List Char) : Option (List Nat) :=
  parseIPv4Loop s none 0 0 []

/-- Value of a hexadecimal digit. -/
def hexVal (c : Char) : Option Nat :=
  if c.isDigit then some (c.toNat - 48)
  else if 'a' ≤ c ∧ c ≤ 'f' then some (c.toNat - 97 + 10)
  else if 'A' ≤ c ∧ c ≤ 'F' then some (c.toNat - 65 + 10)
  else none

/-- The inner loop of `netip.parseIPv6`: one group of at most four hexadecimal
digits. The result is the value, the number of digits and the rest. -/
def parseHexGroup : List Char → Nat → Nat → Option (Nat × Nat × List Char)
  | [], acc, off => some (acc, off, [])
  | c :: cs, acc, off =>
    match hexVal c with
    | none => some (acc, off, c :: cs)
    | some d =>
      let acc := acc * 16 + d
      if off > 3 then none
      else if acc > 65535 then none
      else parseHexGroup cs acc (off + 1)

/-- The outer loop `for i < 16` of `netip.parseIPv6`. `ip` holds the bytes
written so far (`i` is its length), `ellipsis` the place of `::`. The result is
the text left over, the bytes and the ellipsis. Every round that goes on adds
two bytes, so eight rounds exhaust the loop. -/
def parseIPv6Loop : Nat → List Char → List Nat → Option Nat →
    Option (List Char × List Nat × Option Nat)
  | 0, s, ip, ellipsis => some (s, ip, ellipsis)
  | fuel + 1, s, ip, ellipsis =>
    if ip.length ≥ 16 then some (s, ip, ellipsis)
    else
      match parseHexGroup s 0 0 with
      | none => none
      | some (acc, off, rest) =>
        if off = 0 then none
        else if rest.head? = some '.' then
          if ellipsis = none ∧ ip.length ≠ 12 then none
          else if ip.length + 4 > 16 then none
          else
            match parseIPv4Fields s with
            | none => none
            | some fields => some ([], ip ++ fields, ellipsis)
        else
          let ip := ip ++ [acc / 256, acc % 256]
          match rest with
          | [] => some ([], ip, ellipsis)
          | c :: rest1 =>
            if c ≠ ':' then none
            else
              match rest1 with
              | [] => none
              | c2 :: rest2 =>
                if c2 = ':' then
                  if ellipsis.isSome then none
                  else if rest2 = [] then some ([], ip, some ip.length)
                  else parseIPv6Loop fuel rest2 ip (some ip.length)
                else parseIPv6Loop fuel rest1 ip ellipsis

/-- A parsed `netip.Addr`: its 16-byte form (`As16`), whether it is a plain
IPv4 address (`Is4`, so `BitLen` is 32 and not 128), and its zone. -/
structure Addr where
  bytes : List Nat
  is4 : Bool
  zone : String
deriving DecidableEq, Repr

/-- `Addr.BitLen`. -/
def Addr.BitLen (a : Addr) : Nat :=
  if a.is4 then 32 else 128

/-- The prefix of an IPv4 address in its 16-byte form. -/
def v4InV6Prefix : List Nat := [0, 0, 0, 0, 0, 0, 0, 0, 0, 0, 255, 255]

/-- `netip.parseIPv6`. -/
def parseIPv6 (text : List Char) : Option Addr :=
  let split : Option (List Char × String) :=
    match IndexByte text '%' with
    | none => some (text, "")
    | some i => if text.drop (i + 1) = [] then none else some (text.take i, String.mk (text.drop (i + 1)))
  match split with
  | none => none
  | some (s, zone) =>
    let lead : Bool := s.take 2 = [':', ':']
    let s := if lead then s.drop 2 else s
    if lead ∧ s = [] then some { bytes := List.replicate 16 0, is4 := false, zone := zone }
    else
      match parseIPv6Loop 8 s [] (if lead then some 0 else none) with
      | none => none
      | some (rest, ip, ellipsis) =>
        if rest ≠ [] then none
        else if ip.length < 16 then
          match ellipsis with
          | none => none
          | some e =>
            some { bytes := ip.take e ++ List.replicate (16 - ip.length) 0 ++ ip.drop e,
                   is4 := false, zone := zone }
        else if ellipsis.isSome then none
        else some { bytes := ip, is4 := false, zone := zone }

/-- The scan of `netip.ParseAddr` for the first of `.`, `:` and `%`. -/
def parseAddrScan (whole : List Char) : List Char → Option Addr
  | [] => none
  | c :: cs =>
    if c = '.' then
      (parseIPv4Fields whole).map (fun f => { bytes := v4InV6Prefix ++ f, is4 := true, zone := "" })
    else if c = ':' then parseIPv6 whole
    else if c = '%' then none
    else parseAddrScan whole cs

/-- Model of `netip.ParseAddr`. -/
def ParseAddr (s : String) : Option Addr :=
  parseAddrScan s.toList s.toList

/-- Model of `net.ParseIP`: the 16-byte form of a literal IPv4 or IPv6 address
without zone, `none` (Go's `nil`) for any other text. No name is resolved. -/
def ParseIP (s : String) : Option IP :=
  match ParseAddr s with
  | some a => if a.zone = "" then some a.bytes else none
  | none => none

/-- `IP.To4`: the 4-byte form of an IPv4 address, `none` for any other. -/
def To4 (ip : IP) : Option IP :=
  if ip.length = 4 then some ip
  else if ip.length = 16 ∧ ip.take 12 = v4InV6Prefix then some (ip.drop 12)
  else none

/-- `net.CIDRMask(ones, bits)` for `ones ≤ bits` and `bits` 32 or 128. -/
def CIDRMask (ones bits : Nat) : IPMask :=
  (List.range (bits / 8)).map fun i =>
    if ones ≥ 8 * (i + 1) then 255
    else if ones ≤ 8 * i then 0
    else 255 - 255 / 2 ^ (ones - 8 * i)

/-- `IP.Mask`: the network number of `ip` under `mask`, `none` when the lengths differ. -/
def IPMaskApply (ip : IP) (mask : IPMask) : Option IP :=
  let mask := if mask.length = 16 ∧ ip.length = 4 ∧ mask.take 12 = List.replicate 12 255
    then mask.drop 12 else mask
  let ip := if mask.length = 4 ∧ ip.length = 16 ∧ ip.take 12 = v4InV6Prefix
    then ip.drop 12 else ip
  if ip.length ≠ mask.length then none
  else some (List.zipWith (fun a b => a &&& b) ip mask)

/-- `net.dtoi`: the decimal number a text starts with and the count of its
digits; `none` when there is no digit or the number reaches `0xFFFFFF`. -/
def dtoiLoop : List Char → Nat → Nat → Option (Nat × Nat)
  | [], n, i => if i = 0 then none else some (n, i)
  | c :: cs, n, i =>
    if c.isDigit then
      let n := n * 10 + (c.toNat - 48)
      if n ≥ 16777215 then none else dtoiLoop cs n (i + 1)
    else if i = 0 then none else some (n, i)

/-- `(*net.ParseError).Error` for a CIDR address. -/
def cidrParseError (s : String) : String :=
  "invalid CIDR address: " ++ s

/-- Model of `net.ParseCIDR`: an address, a slash and a prefix length of at
most the address's bit length. The result is the address and its network. -/
def ParseCIDR (s : String) : Except String (IP × IPNet) :=
  match IndexByte s.toList '/' with
  | none => .error (cidrParseError s)
  | some i =>
    let addr := s.toList.take i
    let mask := s.toList.drop (i + 1)
    match ParseAddr (String.mk addr) with
    | none => .error (cidrParseError s)
    | some ipAddr =>
      if ipAddr.zone ≠ "" then .error (cidrParseError s)
      else
        match dtoiLoop mask 0 0 with
        | none => .error (cidrParseError s)
        | some (n, used) =>
          if used ≠ mask.length ∨ n > ipAddr.BitLen then .error (cidrParseError s)
          else
            let m := CIDRMask n ipAddr.BitLen
            .ok (ipAddr.bytes, { IP := (IPMaskApply ipAddr.bytes m).getD [], Mask := m })

/-- `net.networkNumberAndMask`. -/
def networkNumberAndMask (n : IPNet) : Option (IP × IPMask) :=
  let ip : Option IP :=
    match To4 n.IP with
    | some ip4 => some ip4
    | none => if n.IP.length ≠ 16 then none else some n.IP
  match ip with
  | none => none
  | some ip =>
    if n.Mask.length = 4 then (if ip.length ≠ 4 then none else some (ip, n.Mask))
    else if n.Mask.length = 16 then
      some (ip, if ip.length = 4 then n.Mask.drop 12 else n.Mask)
    else none

/-- `(*IPNet).Contains`: whether `ip`, in its 4-byte form when it has one,
agrees with the network number on every bit of the mask. -/
def IPNet.Contains (n : IPNet) (ip : Mlik.IP) : Bool :=
  let (nn, m) := (networkNumberAndMask n).getD ([], [])
  let ip := (To4 ip).getD ip
  if ip.length ≠ nn.length then false
  else (List.range ip.length).all fun i => nn.getD i 0 &&& m.getD i 0 = ip.getD i 0 &&& m.getD i 0

/-! ## The egress guard -/

/-- The loop `for _, cidr := range backendCidrs` of `checkBackend`: whether it
returns `nil` from inside. -/
def containedInSome (ipaddress : IP) : List IPNet → Bool
  | [] => false
  | cidr :: rest => if cidr.Contains ipaddress then true else containedInSome ipaddress rest

/-- `checkBackend(address, backendCidrs)`: `.ok ()` is Go's `nil` error. -/
def checkBackend (address : String) (backendCidrs : List IPNet) : Except String Unit :=
  match SplitHostPort address with
  | .error err => .error err
  | .ok (host, _) =>
    match ParseIP host with
    | none => .error (host ++ " is not a valid IP address")
    | some ipaddress =>
      if containedInSome ipaddress backendCidrs then .ok ()
      else .error (address ++ " is not within an allowed backend cidr")

/-- A `net.Dialer` as `createDialContext` fills it in: the timeout in seconds
and the control hook (network, address) run before a connection is made. -/
structure Dialer where
  Timeout : Nat
  Control : String → String → Except String Unit

/-- The call `dialer.DialContext(ctx, network, addr)`. -/
structure DialCall where
  dialer : Dialer
  network : String
  addr : String

/-- The function `createDialContext(backendCidrs)` returns, applied to
`network` and `addr`: the dial it performs. -/
def createDialContext (backendCidrs : List IPNet) (_network addr : String) : DialCall :=
  let dialer : Dialer :=
    { Timeout := 5
      Control := fun _network address =>
        match checkBackend address backendCidrs with
        | .error err => .error err
        | .ok _ => .ok () }
  { dialer := dialer, network := "tcp6", addr := addr }

/-! ## Configuration -/

/-- The callback of `flag.Func("backend-cidr", ...)` in `main`, as a function
of the argument and of the global `backendCidr`: the error it returns and the
new value of `backendCidr`. -/
def backendCidrFlag (arg : String) (backendCidr : List IPNet) : Except String Unit × List IPNet :=
  match ParseCIDR arg with
  | .error err => (.error err, backendCidr)
  | .ok (_, ipnet) => (.ok (), backendCidr ++ [ipnet])

/-- The part of `flag.Parse()` in `main` that concerns the allow-list: the
callback runs on the value of every `-backend-cidr` flag of the command line, in
order; on its first error the default flag set reports the error and ends the
process, which is the `.error` result here (it carries the callback's error). -/
def parseBackendCidrFlags : List String → List IPNet → Except String (List IPNet)
  | [], backendCidr => .ok backendCidr
  | arg :: rest, backendCidr =>
    match backendCidrFlag arg backendCidr with
    | (.error err, _) => .error err
    | (.ok _, backendCidr) => parseBackendCidrFlags rest backendCidr

/-! ## Definitions used to state the properties -/

/-- Values the entries of `h` hold for the header name `c`: those of every
entry whose key has the canonical form `c`, in the order of the entries. -/
def Header.valuesFor : Header → String → List String
  | [], _ => []
  | (k, vs) :: rest, c => (if CanonicalMIMEHeaderKey k = c then vs else []) ++ valuesFor rest c

/-- The header copy loop on the header map alone. -/
def Header.copyFrom (dst src : Header) : Header :=
  src.foldl (fun h kv => kv.2.foldl (fun h headerValue => h.Add kv.1 headerValue) h) dst

/-- The entries of `h` whose key names the same header field as `key`. -/
def Header.sameField (h : Header) (key : String) : Header :=
  h.filter (fun kv => CanonicalMIMEHeaderKey kv.1 = CanonicalMIMEHeaderKey key)

/-- The non-empty reads of a body stream. -/
def Body.data (b : Body) : List String :=
  b.chunks.filter (fun chunk => !chunk.isEmpty)

/-- Whether a body stream delivers at least one byte. -/
def Body.hasData (b : Body) : Bool :=
  !b.data.isEmpty

/-- The non-empty reads of the body of an upstream response, none for a nil body. -/
def Response.data (resp : Response) : List String :=
  match resp.Body with
  | none => []
  | some b => b.data

/-- Whether an upstream response has a body that delivers at least one byte. -/
def Response.hasData (resp : Response) : Bool :=
  !resp.data.isEmpty

/-- The request URL with its scheme set to `https`. -/
def httpsURL (u : URL) : URL :=
  { u with Scheme := "https" }

/-! ## Example inputs -/

/-- `GET http://example.com/something` (the request of `TestHandlerRedirects`). -/
def reqSomething : Request :=
  { Method := "GET"
    URL := { Scheme := "http", Host := "example.com", Path := "/something" }
    Header := [], Body := "" }

/-- `GET http://example.com/.well-known/acme-challenge/sometoken` (the request
of `TestHandlerProxies`). -/
def reqToken : Request :=
  { Method := "GET"
    URL := { Scheme := "http", Host := "example.com",
             Path := "/.well-known/acme-challenge/sometoken" }
    Header := [], Body := "" }

/-- A content type detector for the examples: what `http.DetectContentType`
finds for data that is plain text, as the bodies of the examples are. -/
def detectText : String → String :=
  fun _ => "text/plain; charset=utf-8"

/-- The client of `TestHandlerProxies`: status 200, no header, a nil body. -/
def clientOK : httpClient :=
  fun _ => .success { StatusCode := 200, Header := [], Body := none }

/-- An upstream that answers 201 with a `Location` header of its own. -/
def clientCreated : httpClient :=
  fun _ => .success { StatusCode := 201, Header := [("Location", ["/orders/1"])], Body := none }

/-- An upstream that answers 404 with a body. -/
def clientNotFound : httpClient :=
  fun _ => .success
    { StatusCode := 404, Header := [("Content-Type", ["text/plain"])]
      Body := some { chunks := ["not found"], err := none } }

/-- An upstream that answers with a header of two values and one of one. -/
def clientCookies : httpClient :=
  fun _ => .success
    { StatusCode := 200
      Header := [("Set-Cookie", ["a=1", "b=2"]), ("Content-Type", ["text/plain"])]
      Body := some { chunks := ["token"], err := none } }

/-- A client that hands back a header map with two keys for one header field,
visited in the order given. -/
def clientTwoKeys (first second : String × List String) : httpClient :=
  fun _ => .success { StatusCode := 200, Header := [first, second], Body := none }

/-- A client that hands back a `Content-Type` key without a value, and a body. -/
def clientNoType : httpClient :=
  fun _ => .success
    { StatusCode := 200, Header := [("Content-Type", [])]
      Body := some { chunks := ["token"], err := none } }

/-- A client that hands back a response without status code, as the zero value
`&http.Response{}` of the repository's test has it, with one header. -/
def clientNoStatus : httpClient :=
  fun _ => .success { StatusCode := 0, Header := [("X-Token", ["a"])], Body := none }

/-- A client that hands back the informational status 103 with a `Location`
header and a nil body. -/
def clientEarlyHints : httpClient :=
  fun _ => .success { StatusCode := 103, Header := [("Location", ["/up"])], Body := none }

/-- A client whose round trip fails, with a response next to the error. -/
def clientDown : httpClient :=
  fun _ => .failure
    (some { StatusCode := 302, Header := [("Location", ["http://elsewhere/"])], Body := none })
    "stopped after 10 redirects"

/-- The network `10.0.0.0/8`. -/
def net10 : IPNet := { IP := [10, 0, 0, 0], Mask := [255, 0, 0, 0] }

/-- The networks `0.0.0.0/0` and `::/0`, which hold every address between them. -/
def netsAll : List IPNet :=
  [{ IP := [0, 0, 0, 0], Mask := [0, 0, 0, 0] },
   { IP := List.replicate 16 0, Mask := List.replicate 16 0 }]

/-! ## Lemmas on header maps -/

theorem Header.lookup_store (h : Header) (k c : String) (vs : List String) :
    (h.store k vs).lookup c = if k = c then vs else h.lookup c := by
  induction h with
  | nil => simp [Header.store, Header.lookup]
  | cons e rest ih =>
    obtain ⟨k1, vs1⟩ := e
    by_cases h1 : k1 = k
    · subst h1
      by_cases h2 : k1 = c <;> simp [Header.store, Header.lookup, h2]
    · by_cases h2 : k1 = c
      · subst h2
        have h3 : ¬ k = k1 := fun e => h1 e.symm
        simp [Header.store, Header.lookup, h1, h3]
      · simp [Header.store, Header.lookup, h1, h2, ih]

theorem Header.lookup_erase (h : Header) (k c : String) :
    (h.erase k).lookup c = if k = c then [] else h.lookup c := by
  induction h with
  | nil => simp [Header.erase, Header.lookup]
  | cons e rest ih =>
    obtain ⟨k1, vs1⟩ := e
    by_cases h1 : k1 = k
    · subst h1
      by_cases h2 : k1 = c
      · subst h2
        simpa [Header.erase] using ih
      · simp [Header.erase, Header.lookup, h2, ih]
    · by_cases h2 : k1 = c
      · subst h2
        have h3 : ¬ k = k1 := fun e => h1 e.symm
        simp [Header.erase, Header.lookup, h1, h3]
      · simp [Header.erase, Header.lookup, h1, h2, ih]

theorem Header.lookup_add_values (vs : List String) (h : Header) (k c : String) :
    (vs.foldl (fun h headerValue => h.Add k headerValue) h).lookup c
      = h.lookup c ++ (if CanonicalMIMEHeaderKey k = c then vs else []) := by
  induction vs generalizing h with
  | nil => simp
  | cons v rest ih =>
    rw [List.foldl_cons, ih]
    by_cases hk : CanonicalMIMEHeaderKey k = c
    · subst hk
      simp [Header.Add, Header.lookup_store]
    · simp [Header.Add, Header.lookup_store, hk]

theorem Header.lookup_copyFrom (src dst : Header) (c : String) :
    (dst.copyFrom src).lookup c = dst.lookup c ++ src.valuesFor c := by
  induction src generalizing dst with
  | nil => simp [Header.copyFrom, Header.valuesFor]
  | cons e rest ih =>
    obtain ⟨k, vs⟩ := e
    have step : dst.copyFrom ((k, vs) :: rest)
        = (vs.foldl (fun h headerValue => h.Add k headerValue) dst).copyFrom rest := rfl
    rw [step, ih, Header.lookup_add_values]
    simp [Header.valuesFor, List.append_assoc]

theorem Header.valuesFor_eq (h : Header) (c : String) :
    h.valuesFor c
      = ((h.filter (fun kv => CanonicalMIMEHeaderKey kv.1 = c)).map Prod.snd).flatten := by
  induction h with
  | nil => rfl
  | cons e rest ih =>
    obtain ⟨k, vs⟩ := e
    by_cases hk : CanonicalMIMEHeaderKey k = c
    · simp [Header.valuesFor, hk, ih, List.filter_cons]
    · simp [Header.valuesFor, hk, ih, List.filter_cons]

theorem Header.valuesFor_of_sameField (h : Header) (kv : String × List String)
    (hkey : h.sameField kv.1 = [kv]) :
    h.valuesFor (CanonicalMIMEHeaderKey kv.1) = kv.2 := by
  rw [Header.valuesFor_eq]
  unfold Header.sameField at hkey
  rw [hkey]
  simp

theorem Header.has_store (h : Header) (k c : String) (vs : List String) :
    (h.store k vs).has c = (decide (k = c) || h.has c) := by
  induction h with
  | nil => simp [Header.store, Header.has]
  | cons e rest ih =>
    obtain ⟨k1, vs1⟩ := e
    unfold Header.has at ih
    by_cases h1 : k1 = k
    · subst h1
      simp [Header.store, Header.has]
    · by_cases h2 : k1 = c
      · subst h2
        simp [Header.store, Header.has, h1]
      · simp [Header.store, Header.has, h1, h2, ih]

theorem Header.has_of_lookup (h : Header) (c : String) (hne : h.lookup c ≠ []) :
    h.has c = true := by
  induction h with
  | nil => simp [Header.lookup] at hne
  | cons e rest ih =>
    obtain ⟨k1, vs1⟩ := e
    unfold Header.has at ih
    by_cases h1 : k1 = c
    · simp [Header.has, h1]
    · simp only [Header.lookup, h1, if_false] at hne
      simp [Header.has, h1, ih hne]

/-- Sniffing leaves the values of every header field but `Content-Type` as they
are, and those of `Content-Type` too when the map has the key. -/
theorem sniffed_lookup (detectContentType : String → String) (h : Header) (data c : String)
    (hc : c ≠ "Content-Type" ∨ h.lookup c ≠ []) :
    (sniffed detectContentType h data).lookup c = h.lookup c := by
  unfold sniffed
  split
  · rename_i hcond
    rw [Header.lookup_store]
    by_cases heq : "Content-Type" = c
    · subst heq
      rcases hc with hc | hc
      · exact absurd rfl hc
      · have := Header.has_of_lookup h _ hc
        simp [this] at hcond
    · simp [heq]
  · rfl

/-! ## Lemmas on the response writer -/

theorem finalStatus_iff (code : Int) :
    finalStatus code = true ↔ code = 101 ∨ (200 ≤ code ∧ code ≤ 999) := by
  simp only [finalStatus, validWriteHeaderCode, informational, StatusSwitchingProtocols,
    Bool.and_eq_true, Bool.not_eq_true', decide_eq_true_eq, decide_eq_false_iff_not]
  omega

theorem ResponseWriter.WriteHeader_committed (w : ResponseWriter) (code s : Int)
    (h : w.status = some s) :
    w.WriteHeader code = .ok { w with calls := w.calls ++ [code] } := by
  simp [ResponseWriter.WriteHeader, h]

theorem ResponseWriter.WriteHeader_final (w : ResponseWriter) (code : Int)
    (h : w.status = none) (hcode : finalStatus code = true) :
    w.WriteHeader code
      = .ok { w with status := some code, sent := w.header, calls := w.calls ++ [code] } := by
  simp only [finalStatus, Bool.and_eq_true, Bool.not_eq_true'] at hcode
  simp [ResponseWriter.WriteHeader, h, hcode.1, hcode.2]

theorem copyValues_eq (vs : List String) (w : ResponseWriter) (k : String) :
    vs.foldl (fun w headerValue => w.headerAdd k headerValue) w
      = { w with header := vs.foldl (fun h headerValue => h.Add k headerValue) w.header } := by
  induction vs generalizing w with
  | nil => rfl
  | cons v rest ih =>
    rw [List.foldl_cons, ih]
    rfl

theorem copyHeader_eq (up : Header) (w : ResponseWriter) :
    copyHeader w up = { w with header := w.header.copyFrom up } := by
  induction up generalizing w with
  | nil => rfl
  | cons e rest ih =>
    have step : copyHeader w (e :: rest)
        = copyHeader (e.2.foldl (fun w headerValue => w.headerAdd e.1 headerValue) w) rest := rfl
    rw [step, ih, copyValues_eq]
    rfl

/-- The body copy on a response committed with 200 that has data already: the
non-empty reads are appended, nothing else changes. -/
theorem ioCopyLoop_committed (detectContentType : String → String) (chunks : List String)
    (w : ResponseWriter) (hs : w.status = some StatusOK) (hb : w.body ≠ []) :
    ioCopyLoop detectContentType w chunks
      = ({ w with body := w.body ++ chunks.filter (fun chunk => !chunk.isEmpty) }, none) := by
  induction chunks generalizing w with
  | nil => simp [ioCopyLoop]
  | cons c cs ih =>
    by_cases hc : c.isEmpty = true
    · simp [ioCopyLoop, hc, ih w hs hb]
    · have hc2 : c.isEmpty = false := by simpa using hc
      have hbe : w.body.isEmpty = false := by
        cases hw : w.body with
        | nil => exact absurd hw hb
        | cons _ _ => rfl
      have hW : w.Write detectContentType c = ({ w with body := w.body ++ [c] }, none) := by
        simp [ResponseWriter.Write, hs, hc2, hbe, bodyAllowedForStatus, StatusOK,
          StatusNoContent, StatusNotModified]
      have hrest := ih { w with body := w.body ++ [c] } hs (by simp)
      simp only [ioCopyLoop, hc2, hW, Bool.false_eq_true, if_false]
      rw [hrest]
      simp [List.filter_cons, hc2]

/-- The body copy on a response nothing was committed on: without data nothing
happens; the first data commits the response with status 200 and the header
map as it is, sniffed for a content type. -/
theorem ioCopyLoop_uncommitted (detectContentType : String → String) (chunks : List String)
    (w : ResponseWriter) (hs : w.status = none) :
    ioCopyLoop detectContentType w chunks
      = match chunks.filter (fun chunk => !chunk.isEmpty) with
        | [] => (w, none)
        | c :: cs =>
          ({ w with
              status := some StatusOK
              sent := if w.body.isEmpty then sniffed detectContentType w.header c else w.header
              body := w.body ++ c :: cs }, none) := by
  induction chunks generalizing w with
  | nil => simp [ioCopyLoop]
  | cons c cs ih =>
    by_cases hc : c.isEmpty = true
    · simp [ioCopyLoop, hc, ih w hs, List.filter_cons]
    · have hc2 : c.isEmpty = false := by simpa using hc
      have hW : w.Write detectContentType c
          = ({ w with
                status := some StatusOK
                sent := if w.body.isEmpty then sniffed detectContentType w.header c else w.header
                body := w.body ++ [c] }, none) := by
        simp [ResponseWriter.Write, hs, hc2, bodyAllowedForStatus, StatusOK,
          StatusNoContent, StatusNotModified]
      have hrest := ioCopyLoop_committed detectContentType cs
        { w with
            status := some StatusOK
            sent := if w.body.isEmpty then sniffed detectContentType w.header c else w.header
            body := w.body ++ [c] } rfl (by simp)
      simp only [ioCopyLoop, hc2, hW, Bool.false_eq_true, if_false]
      rw [hrest]
      simp [List.filter_cons, hc2]

/-! ## Lemmas on the handler -/

/-- A successful round trip: the header copy and the body copy, then line 94,
then, unless that panics, the redirect steps. -/
theorem createHandler_success (client : httpClient) (urlString : URL → String)
    (detectContentType : String → String) (w : ResponseWriter) (r : Request) (resp : Response)
    (hpath : HasPrefix r.URL.Path acmeChallengePath = true)
    (hdo : client r = .success resp) :
    createHandler client urlString detectContentType w r =
      match statusStep (relaySteps detectContentType
          { w := w, r := r, doCalls := [r], bodyClosed := false, logs := [], panic := none }
          resp) resp.StatusCode with
      | (o, true) => o
      | (o, false) => redirectSteps urlString o := by
  simp [createHandler, hpath, acmeSteps, hdo]

theorem createHandler_failure (client : httpClient) (urlString : URL → String)
    (detectContentType : String → String) (w : ResponseWriter) (r : Request)
    (resp : Option Response) (err : String)
    (hpath : HasPrefix r.URL.Path acmeChallengePath = true)
    (hdo : client r = .failure resp err) :
    createHandler client urlString detectContentType w r =
      match httpError detectContentType w "Upstream error" StatusBadGateway with
      | .error value =>
        { w := w, r := r, doCalls := [r], bodyClosed := true,
          logs := ["failed to send request to upstream"], panic := some value }
      | .ok w1 =>
        { w := w1, r := r, doCalls := [r], bodyClosed := true,
          logs := ["failed to send request to upstream"], panic := none } := by
  simp only [createHandler, hpath, acmeSteps, hdo, if_true]
  cases httpError detectContentType w "Upstream error" StatusBadGateway <;> simp

theorem createHandler_redirect (client : httpClient) (urlString : URL → String)
    (detectContentType : String → String) (w : ResponseWriter) (r : Request)
    (hpath : HasPrefix r.URL.Path acmeChallengePath = false) :
    createHandler client urlString detectContentType w r =
      redirectSteps urlString
        { w := w, r := r, doCalls := [], bodyClosed := false, logs := [], panic := none } := by
  simp [createHandler, hpath]

theorem relaySteps_frame (detectContentType : String → String) (o : Outcome) (resp : Response) :
    (relaySteps detectContentType o resp).r = o.r ∧
    (relaySteps detectContentType o resp).doCalls = o.doCalls ∧
    (relaySteps detectContentType o resp).bodyClosed = o.bodyClosed ∧
    (relaySteps detectContentType o resp).panic = o.panic := by
  unfold relaySteps
  cases resp.Body with
  | none => simp
  | some b =>
    simp only []
    split <;> simp

/-- The writer after the header copy and the body copy, on a response nothing
was committed on. -/
theorem relaySteps_writer (detectContentType : String → String) (o : Outcome) (resp : Response)
    (hs : o.w.status = none) :
    (relaySteps detectContentType o resp).w
      = match resp.data with
        | [] => { o.w with header := o.w.header.copyFrom resp.Header }
        | c :: cs =>
          { o.w with
              header := o.w.header.copyFrom resp.Header
              status := some StatusOK
              sent := if o.w.body.isEmpty
                then sniffed detectContentType (o.w.header.copyFrom resp.Header) c
                else o.w.header.copyFrom resp.Header
              body := o.w.body ++ c :: cs } := by
  unfold relaySteps Response.data
  cases hb : resp.Body with
  | none => simp [copyHeader_eq]
  | some b =>
    have hloop := ioCopyLoop_uncommitted detectContentType b.chunks
      { o.w with header := o.w.header.copyFrom resp.Header } hs
    simp only [copyHeader_eq, ioCopy, hloop, Body.data]
    cases b.chunks.filter (fun chunk => !chunk.isEmpty) with
    | nil => cases b.err <;> simp
    | cons c cs => cases b.err <;> simp

/-- Line 94 and the redirect steps on a response that is committed: nothing
reaches the caller any more. -/
theorem tail_committed (urlString : URL → String) (o : Outcome) (code s : Int)
    (hs : o.w.status = some s) :
    (match statusStep o code with
      | (o, true) => o
      | (o, false) => redirectSteps urlString o)
      = { o with
          w := { o.w with
                  header := o.w.header.Set "Location" (urlString (httpsURL o.r.URL))
                  calls := o.w.calls ++ [code, StatusPermanentRedirect] }
          r := { o.r with URL := httpsURL o.r.URL } } := by
  have h1 := ResponseWriter.WriteHeader_committed o.w code s hs
  have h2 := ResponseWriter.WriteHeader_committed
    ({ o.w with calls := o.w.calls ++ [code] }.headerSet "Location"
      (urlString (httpsURL o.r.URL))) StatusPermanentRedirect s hs
  simp only [statusStep, h1, redirectSteps]
  simp only [httpsURL] at h2 ⊢
  rw [h2]
  simp [ResponseWriter.headerSet]

/-- Line 94 with a final code on a response nothing was committed on, and the
redirect steps after it. -/
theorem tail_final (urlString : URL → String) (o : Outcome) (code : Int)
    (hs : o.w.status = none) (hcode : finalStatus code = true) :
    (match statusStep o code with
      | (o, true) => o
      | (o, false) => redirectSteps urlString o)
      = { o with
          w := { o.w with
                  header := o.w.header.Set "Location" (urlString (httpsURL o.r.URL))
                  status := some code
                  sent := o.w.header
                  calls := o.w.calls ++ [code, StatusPermanentRedirect] }
          r := { o.r with URL := httpsURL o.r.URL } } := by
  have h1 := ResponseWriter.WriteHeader_final o.w code hs hcode
  have h2 := ResponseWriter.WriteHeader_committed
    ({ o.w with status := some code, sent := o.w.header,
                calls := o.w.calls ++ [code] }.headerSet "Location"
      (urlString (httpsURL o.r.URL))) StatusPermanentRedirect code rfl
  simp only [statusStep, h1, redirectSteps]
  simp only [httpsURL] at h2 ⊢
  rw [h2]
  simp [ResponseWriter.headerSet]

theorem redirectSteps_doCalls (urlString : URL → String) (o : Outcome) :
    (redirectSteps urlString o).doCalls = o.doCalls := by
  unfold redirectSteps
  simp only []
  split <;> rfl

theorem statusStep_doCalls (o : Outcome) (code : Int) :
    (statusStep o code).1.doCalls = o.doCalls := by
  unfold statusStep
  split <;> rfl

/-- On a challenge request `Do` is called once, with the request as received,
whatever it returns. -/
theorem createHandler_doCalls (client : httpClient) (urlString : URL → String)
    (detectContentType : String → String) (w : ResponseWriter) (r : Request)
    (hpath : HasPrefix r.URL.Path acmeChallengePath = true) :
    (createHandler client urlString detectContentType w r).doCalls = [r] := by
  cases hdo : client r with
  | failure resp err =>
    rw [createHandler_failure client urlString detectContentType w r resp err hpath hdo]
    split <;> rfl
  | success resp =>
    rw [createHandler_success client urlString detectContentType w r resp hpath hdo]
    have h1 := statusStep_doCalls (relaySteps detectContentType
      { w := w, r := r, doCalls := [r], bodyClosed := false, logs := [], panic := none } resp)
      resp.StatusCode
    have h2 := (relaySteps_frame detectContentType
      { w := w, r := r, doCalls := [r], bodyClosed := false, logs := [], panic := none } resp).2.1
    split
    · rename_i o heq
      rw [heq] at h1
      exact h1.trans h2
    · rename_i o heq
      rw [heq] at h1
      rw [redirectSteps_doCalls]
      exact h1.trans h2

/-- A successful round trip whose response has data or a final status code, on
a response nothing was committed on: the handler does not panic, the status
committed is 200 when there is data and the upstream one otherwise, and the
header map delivered is the one the copy loop built, sniffed for a content
type when data was written first. -/
theorem createHandler_forward_committed (client : httpClient) (urlString : URL → String)
    (detectContentType : String → String) (w : ResponseWriter) (r : Request) (resp : Response)
    (hpath : HasPrefix r.URL.Path acmeChallengePath = true)
    (hdo : client r = .success resp) (hw : w.status = none)
    (hcommit : resp.hasData = true ∨ finalStatus resp.StatusCode = true) :
    (createHandler client urlString detectContentType w r).panic = none ∧
    (createHandler client urlString detectContentType w r).w.status
      = some (if resp.hasData then StatusOK else resp.StatusCode) ∧
    ((createHandler client urlString detectContentType w r).w.sent
        = w.header.copyFrom resp.Header ∨
      ∃ data, (createHandler client urlString detectContentType w r).w.sent
        = sniffed detectContentType (w.header.copyFrom resp.Header) data) := by
  rw [createHandler_success client urlString detectContentType w r resp hpath hdo]
  have hframe := relaySteps_frame detectContentType
    { w := w, r := r, doCalls := [r], bodyClosed := false, logs := [], panic := none } resp
  have hwr := relaySteps_writer detectContentType
    { w := w, r := r, doCalls := [r], bodyClosed := false, logs := [], panic := none } resp hw
  cases hd : resp.data with
  | nil =>
    have hnd : resp.hasData = false := by simp [Response.hasData, hd]
    have hfinal : finalStatus resp.StatusCode = true := by
      rcases hcommit with h | h
      · rw [hnd] at h
        cases h
      · exact h
    rw [hd] at hwr
    have hst : (relaySteps detectContentType
        { w := w, r := r, doCalls := [r], bodyClosed := false, logs := [], panic := none }
        resp).w.status = none := by
      rw [hwr]
      exact hw
    rw [tail_final urlString _ resp.StatusCode hst hfinal]
    simp [hframe.2.2.2, hnd, hwr]
  | cons c cs =>
    have hyd : resp.hasData = true := by simp [Response.hasData, hd]
    rw [hd] at hwr
    have hst : (relaySteps detectContentType
        { w := w, r := r, doCalls := [r], bodyClosed := false, logs := [], panic := none }
        resp).w.status = some StatusOK := by
      rw [hwr]
    rw [tail_committed urlString _ resp.StatusCode StatusOK hst]
    simp only [hframe.2.2.2, hyd, hwr, if_true, true_and]
    by_cases hbody : w.body.isEmpty = true
    · right
      exact ⟨c, by simp [hbody]⟩
    · left
      simp [hbody]

/-- `http.Error` with status 502 on a response nothing was committed on. -/
theorem httpError_bad_gateway (detectContentType : String → String) (w : ResponseWriter)
    (hw : w.status = none) :
    httpError detectContentType w "Upstream error" StatusBadGateway
      = .ok { header := ((w.header.Del "Content-Length").Set "Content-Type"
                "text/plain; charset=utf-8").Set "X-Content-Type-Options" "nosniff"
              status := some StatusBadGateway
              sent := ((w.header.Del "Content-Length").Set "Content-Type"
                "text/plain; charset=utf-8").Set "X-Content-Type-Options" "nosniff"
              interim := w.interim
              body := w.body ++ ["Upstream error" ++ "\n"]
              calls := w.calls ++ [StatusBadGateway] } := by
  have hfinal : finalStatus StatusBadGateway = true := by decide
  have hwh := ResponseWriter.WriteHeader_final
    (((w.headerDel "Content-Length").headerSet "Content-Type"
      "text/plain; charset=utf-8").headerSet "X-Content-Type-Options" "nosniff")
    StatusBadGateway hw hfinal
  have hmsg : ("Upstream error" ++ "\n").isEmpty = false := by decide
  have hallowed : bodyAllowedForStatus StatusBadGateway = true := by decide
  have hct : CanonicalMIMEHeaderKey "Content-Type" = "Content-Type" := by decide
  have hhas : ((((w.header.Del "Content-Length").Set "Content-Type"
      "text/plain; charset=utf-8").Set "X-Content-Type-Options" "nosniff").has
      "Content-Type") = true := by
    simp [Header.Set, Header.has_store, hct]
  simp only [httpError, hwh]
  simp only [ResponseWriter.Write, hmsg, ResponseWriter.headerSet, ResponseWriter.headerDel,
    Option.getD, hallowed, sniffed, hhas, Bool.not_true, Bool.false_and, Bool.false_eq_true,
    if_false, ite_self]

/-! ## The handler: claims -/

theorem canonical_location : CanonicalMIMEHeaderKey "Location" = "Location" := by decide

/-- C1. A request whose path does not start with `/.well-known/acme-challenge`,
handled on a writer nothing was committed on, gets status 308 and exactly one
`Location` value, the string form of the request URL with scheme `https` and
every other component (host, path and query among them) as it was; `Do` is
not called, and the handler does not panic. -/
theorem createHandler_redirects_to_https (client : httpClient) (urlString : URL → String)
    (detectContentType : String → String) (w : ResponseWriter) (r : Request)
    (hpath : HasPrefix r.URL.Path acmeChallengePath = false) (hw : w.status = none) :
    (createHandler client urlString detectContentType w r).w.status = some 308 ∧
    (createHandler client urlString detectContentType w r).w.sent.Values "Location"
      = [urlString { r.URL with Scheme := "https" }] ∧
    (createHandler client urlString detectContentType w r).doCalls = [] ∧
    (createHandler client urlString detectContentType w r).panic = none := by
  rw [createHandler_redirect client urlString detectContentType w r hpath]
  have hfinal : finalStatus StatusPermanentRedirect = true := by decide
  have h := ResponseWriter.WriteHeader_final
    (w.headerSet "Location" (urlString { r.URL with Scheme := "https" }))
    StatusPermanentRedirect hw hfinal
  simp only [redirectSteps, h]
  simp [ResponseWriter.headerSet, Header.Values, Header.Set, Header.lookup_store,
    StatusPermanentRedirect]

/-- The request of `TestHandlerRedirects`: 308, `Location: https://example.com/something`, no `Do`. -/
theorem createHandler_redirects_to_https_witness :
    HasPrefix reqSomething.URL.Path acmeChallengePath = false ∧
    simpleURLString { reqSomething.URL with Scheme := "https" }
      = "https://example.com/something" ∧
    (createHandler clientOK simpleURLString detectText ResponseWriter.fresh reqSomething).w.status
      = some 308 ∧
    (createHandler clientOK simpleURLString detectText ResponseWriter.fresh
        reqSomething).w.sent.Values "Location"
      = [simpleURLString { reqSomething.URL with Scheme := "https" }] ∧
    (createHandler clientOK simpleURLString detectText ResponseWriter.fresh reqSomething).doCalls
      = [] ∧
    (createHandler clientOK simpleURLString detectText ResponseWriter.fresh reqSomething).panic
      = none :=
  ⟨by decide, by decide,
    createHandler_redirects_to_https clientOK simpleURLString detectText ResponseWriter.fresh
      reqSomething (by decide) rfl⟩

/-- C2, counterexample. The upstream answers the challenge request with 201
and `Location: /orders/1`; the response delivered to the caller carries that
`Location` header. -/
theorem createHandler_delivers_upstream_location :
    HasPrefix reqToken.URL.Path acmeChallengePath = true ∧
    clientCreated reqToken
      = .success { StatusCode := 201, Header := [("Location", ["/orders/1"])], Body := none } ∧
    (createHandler clientCreated simpleURLString detectText ResponseWriter.fresh reqToken).w.status
      = some 201 ∧
    (createHandler clientCreated simpleURLString detectText ResponseWriter.fresh
        reqToken).w.sent.Values "Location"
      = ["/orders/1"] := by
  decide

/-- C2, amended. A request whose path starts with `/.well-known/acme-challenge`
makes the handler call `Do` exactly once, with the request as received; when
`Do` succeeds with a response that has a final status code (101, or 200 to 999)
or a body with data, a response is committed on the fresh writer and its
`Location` values are exactly those of the upstream response (none when it
has none). Nothing is said of an upstream response without data whose status
code is informational or no status code at all. -/
theorem createHandler_forwards_once (client : httpClient) (urlString : URL → String)
    (detectContentType : String → String) (w : ResponseWriter) (r : Request)
    (hpath : HasPrefix r.URL.Path acmeChallengePath = true)
    (hw : w.status = none) (hh : w.header = []) :
    (createHandler client urlString detectContentType w r).doCalls = [r] ∧
    ∀ resp, client r = .success resp →
      (resp.hasData = true ∨ finalStatus resp.StatusCode = true) →
      (createHandler client urlString detectContentType w r).panic = none ∧
      (createHandler client urlString detectContentType w r).w.status.isSome = true ∧
      (createHandler client urlString detectContentType w r).w.sent.Values "Location"
        = resp.Header.valuesFor "Location" := by
  refine ⟨createHandler_doCalls client urlString detectContentType w r hpath, ?_⟩
  intro resp hdo hcommit
  obtain ⟨hpanic, hstatus, hsent⟩ :=
    createHandler_forward_committed client urlString detectContentType w r resp hpath hdo hw
      hcommit
  refine ⟨hpanic, by rw [hstatus]; rfl, ?_⟩
  have hcopy : (w.header.copyFrom resp.Header).lookup "Location"
      = resp.Header.valuesFor "Location" := by
    rw [Header.lookup_copyFrom, hh]
    rfl
  rw [Header.Values, canonical_location]
  rcases hsent with h | ⟨data, h⟩
  · rw [h, hcopy]
  · rw [h, sniffed_lookup detectContentType _ data "Location" (Or.inl (by decide)), hcopy]

/-- The request and the client of `TestHandlerProxies`: one `Do`, no `Location` delivered. -/
theorem createHandler_forwards_once_witness :
    HasPrefix reqToken.URL.Path acmeChallengePath = true ∧
    (createHandler clientOK simpleURLString detectText ResponseWriter.fresh reqToken).doCalls
      = [reqToken] ∧
    (createHandler clientOK simpleURLString detectText ResponseWriter.fresh reqToken).panic
      = none ∧
    (createHandler clientOK simpleURLString detectText ResponseWriter.fresh
        reqToken).w.status.isSome = true ∧
    (createHandler clientOK simpleURLString detectText ResponseWriter.fresh
        reqToken).w.sent.Values "Location"
      = [] :=
  ⟨by decide,
    (createHandler_forwards_once clientOK simpleURLString detectText ResponseWriter.fresh
      reqToken (by decide) rfl rfl).1,
    (createHandler_forwards_once clientOK simpleURLString detectText ResponseWriter.fresh
      reqToken (by decide) rfl rfl).2 _ rfl (Or.inr (by decide))⟩

/-- The fall-through of C6 as the caller sees it: the upstream answers the
challenge request with the informational status 103 and `Location: /up`, which
goes out as an interim response; the redirect steps then commit 308 with the
redirect URL in place of the upstream `Location`. -/
theorem createHandler_redirects_after_early_hints :
    (createHandler clientEarlyHints simpleURLString detectText ResponseWriter.fresh
        reqToken).w.interim = [(103, [("Location", ["/up"])])] ∧
    (createHandler clientEarlyHints simpleURLString detectText ResponseWriter.fresh
        reqToken).w.status = some 308 ∧
    (createHandler clientEarlyHints simpleURLString detectText ResponseWriter.fresh
        reqToken).w.sent.Values "Location"
      = ["https://example.com/.well-known/acme-challenge/sometoken"] := by
  decide

/-- A status code of less than three digits makes line 94 panic: nothing is
committed, and the redirect steps are not reached. -/
theorem createHandler_panics_on_invalid_status :
    (createHandler clientNoStatus simpleURLString detectText ResponseWriter.fresh
        reqToken).panic = some "invalid WriteHeader code 0" ∧
    (createHandler clientNoStatus simpleURLString detectText ResponseWriter.fresh
        reqToken).w.status = none ∧
    (createHandler clientNoStatus simpleURLString detectText ResponseWriter.fresh
        reqToken).w.calls = [] := by
  decide

/-- C4. When `Do` fails on a challenge request, the handler closes the request
body, commits status 502, and calls `Do` no second time; the header map it
delivers is the one `http.Error` builds from the writer's own header map, with
nothing of an upstream response in it, and its `Location` values are those the
writer had before (none on a fresh writer). The handler does not panic. -/
theorem createHandler_bad_gateway (client : httpClient) (urlString : URL → String)
    (detectContentType : String → String) (w : ResponseWriter) (r : Request)
    (resp : Option Response) (err : String)
    (hpath : HasPrefix r.URL.Path acmeChallengePath = true)
    (hdo : client r = .failure resp err) (hw : w.status = none) :
    (createHandler client urlString detectContentType w r).bodyClosed = true ∧
    (createHandler client urlString detectContentType w r).w.status = some 502 ∧
    (createHandler client urlString detectContentType w r).doCalls = [r] ∧
    (createHandler client urlString detectContentType w r).w.sent
      = ((w.header.Del "Content-Length").Set "Content-Type" "text/plain; charset=utf-8").Set
          "X-Content-Type-Options" "nosniff" ∧
    (createHandler client urlString detectContentType w r).w.header
      = (createHandler client urlString detectContentType w r).w.sent ∧
    (createHandler client urlString detectContentType w r).w.sent.Values "Location"
      = w.header.Values "Location" ∧
    (createHandler client urlString detectContentType w r).w.calls = w.calls ++ [502] ∧
    (createHandler client urlString detectContentType w r).panic = none := by
  rw [createHandler_failure client urlString detectContentType w r resp err hpath hdo,
    httpError_bad_gateway detectContentType w hw]
  have h1 : ¬ CanonicalMIMEHeaderKey "X-Content-Type-Options" = CanonicalMIMEHeaderKey "Location" := by
    decide
  have h2 : ¬ CanonicalMIMEHeaderKey "Content-Type" = CanonicalMIMEHeaderKey "Location" := by
    decide
  have h3 : ¬ CanonicalMIMEHeaderKey "Content-Length" = CanonicalMIMEHeaderKey "Location" := by
    decide
  simp [StatusBadGateway, Header.Values, Header.Set, Header.Del, Header.lookup_store,
    Header.lookup_erase, h1, h2, h3]

/-- A failing round trip that hands back a response with a `Location` header: 502, and no `Location`. -/
theorem createHandler_bad_gateway_witness :
    HasPrefix reqToken.URL.Path acmeChallengePath = true ∧
    (createHandler clientDown simpleURLString detectText ResponseWriter.fresh reqToken).bodyClosed
      = true ∧
    (createHandler clientDown simpleURLString detectText ResponseWriter.fresh reqToken).w.status
      = some 502 ∧
    (createHandler clientDown simpleURLString detectText ResponseWriter.fresh reqToken).doCalls
      = [reqToken] ∧
    (createHandler clientDown simpleURLString detectText ResponseWriter.fresh reqToken).w.sent
      = ((ResponseWriter.fresh.header.Del "Content-Length").Set "Content-Type"
          "text/plain; charset=utf-8").Set "X-Content-Type-Options" "nosniff" ∧
    (createHandler clientDown simpleURLString detectText ResponseWriter.fresh reqToken).w.header
      = (createHandler clientDown simpleURLString detectText ResponseWriter.fresh reqToken).w.sent ∧
    (createHandler clientDown simpleURLString detectText ResponseWriter.fresh
        reqToken).w.sent.Values "Location"
      = ResponseWriter.fresh.header.Values "Location" ∧
    (createHandler clientDown simpleURLString detectText ResponseWriter.fresh reqToken).w.calls
      = ResponseWriter.fresh.calls ++ [502] ∧
    (createHandler clientDown simpleURLString detectText ResponseWriter.fresh reqToken).panic
      = none :=
  ⟨by decide,
    createHandler_bad_gateway clientDown simpleURLString detectText ResponseWriter.fresh reqToken
      _ _ (by decide) rfl rfl⟩

/-- C5, the failing input. The upstream answers the challenge request with 404
and the body `not found`: the body copy commits the response with 200 before
`WriteHeader(404)` is reached. -/
theorem createHandler_commits_200_for_404 :
    HasPrefix reqToken.URL.Path acmeChallengePath = true ∧
    clientNotFound reqToken
      = .success { StatusCode := 404, Header := [("Content-Type", ["text/plain"])],
                   Body := some { chunks := ["not found"], err := none } } ∧
    (createHandler clientNotFound simpleURLString detectText ResponseWriter.fresh reqToken).w.status
      = some 200 ∧
    (createHandler clientNotFound simpleURLString detectText ResponseWriter.fresh reqToken).w.calls
      = [404, 308] := by
  decide

/-- C6, the failing input. After the successful forward of `TestHandlerProxies`
the handler goes on into the redirect steps: it sets `Location` on the header
map, calls `WriteHeader` a second time, with 308, and rewrites the scheme of
the request URL. -/
theorem createHandler_falls_through_after_forward :
    HasPrefix reqToken.URL.Path acmeChallengePath = true ∧
    clientOK reqToken = .success { StatusCode := 200, Header := [], Body := none } ∧
    (createHandler clientOK simpleURLString detectText ResponseWriter.fresh
        reqToken).w.header.Values "Location"
      = ["https://example.com/.well-known/acme-challenge/sometoken"] ∧
    (createHandler clientOK simpleURLString detectText ResponseWriter.fresh reqToken).w.calls
      = [200, 308] ∧
    (createHandler clientOK simpleURLString detectText ResponseWriter.fresh reqToken).r.URL.Scheme
      = "https" := by
  decide

/-- C7, counterexample. Two keys of the upstream header map that name one
header field, `x-a` with the value `1` and `X-A` with the value `2`, are merged
on the outbound response, in the order the map happens to be visited in; an
upstream `Content-Type` key without value goes out with the content type
sniffed from the body; and with an upstream response without status code line
94 panics, so that no response is committed and none of its headers go out. -/
theorem createHandler_merges_keys_of_one_field :
    HasPrefix reqToken.URL.Path acmeChallengePath = true ∧
    clientTwoKeys ("x-a", ["1"]) ("X-A", ["2"]) reqToken
      = .success { StatusCode := 200, Header := [("x-a", ["1"]), ("X-A", ["2"])], Body := none } ∧
    (createHandler (clientTwoKeys ("x-a", ["1"]) ("X-A", ["2"])) simpleURLString detectText
        ResponseWriter.fresh reqToken).w.sent.Values "x-a" = ["1", "2"] ∧
    (createHandler (clientTwoKeys ("x-a", ["1"]) ("X-A", ["2"])) simpleURLString detectText
        ResponseWriter.fresh reqToken).w.sent.Values "X-A" = ["1", "2"] ∧
    (createHandler (clientTwoKeys ("X-A", ["2"]) ("x-a", ["1"])) simpleURLString detectText
        ResponseWriter.fresh reqToken).w.sent.Values "x-a" = ["2", "1"] ∧
    (createHandler (clientTwoKeys ("X-A", ["2"]) ("x-a", ["1"])) simpleURLString detectText
        ResponseWriter.fresh reqToken).w.sent.Values "X-A" = ["2", "1"] ∧
    clientNoType reqToken
      = .success { StatusCode := 200, Header := [("Content-Type", [])],
                   Body := some { chunks := ["token"], err := none } } ∧
    (createHandler clientNoType simpleURLString detectText ResponseWriter.fresh
        reqToken).w.sent.Values "Content-Type" = ["text/plain; charset=utf-8"] ∧
    clientNoStatus reqToken
      = .success { StatusCode := 0, Header := [("X-Token", ["a"])], Body := none } ∧
    (createHandler clientNoStatus simpleURLString detectText ResponseWriter.fresh
        reqToken).panic.isSome = true ∧
    (createHandler clientNoStatus simpleURLString detectText ResponseWriter.fresh
        reqToken).w.status = none ∧
    (createHandler clientNoStatus simpleURLString detectText ResponseWriter.fresh
        reqToken).w.sent.Values "X-Token" = [] := by
  decide

/-- C7, amended. After a successful forward whose response has a final status
code (101, or 200 to 999) or a body with data, on a writer with an empty header
map and nothing committed, the response delivered holds, for every key of the
upstream header map that has at least one value and is the only key of that
map for its header field, exactly the upstream list of values of that key, in
the same order. The upstream map is any list of entries, in any order of
iteration. -/
theorem createHandler_copies_upstream_headers (client : httpClient) (urlString : URL → String)
    (detectContentType : String → String) (w : ResponseWriter) (r : Request) (resp : Response)
    (hpath : HasPrefix r.URL.Path acmeChallengePath = true)
    (hdo : client r = .success resp)
    (hw : w.status = none) (hh : w.header = [])
    (hcommit : resp.hasData = true ∨ finalStatus resp.StatusCode = true) :
    ∀ kv ∈ resp.Header, kv.2 ≠ [] → resp.Header.sameField kv.1 = [kv] →
      (createHandler client urlString detectContentType w r).w.sent.Values kv.1 = kv.2 := by
  intro kv _ hvalues hkey
  obtain ⟨_, _, hsent⟩ :=
    createHandler_forward_committed client urlString detectContentType w r resp hpath hdo hw
      hcommit
  have hcopy : (w.header.copyFrom resp.Header).lookup (CanonicalMIMEHeaderKey kv.1) = kv.2 := by
    rw [Header.lookup_copyFrom, hh, Header.valuesFor_of_sameField resp.Header kv hkey]
    rfl
  rw [Header.Values]
  rcases hsent with h | ⟨data, h⟩
  · rw [h, hcopy]
  · rw [h, sniffed_lookup detectContentType _ data _ (Or.inr (by rw [hcopy]; exact hvalues)),
      hcopy]

/-- An upstream header with two `Set-Cookie` values: both are delivered, in order. -/
theorem createHandler_copies_upstream_headers_witness :
    HasPrefix reqToken.URL.Path acmeChallengePath = true ∧
    (createHandler clientCookies simpleURLString detectText ResponseWriter.fresh
        reqToken).w.sent.Values "Set-Cookie" = ["a=1", "b=2"] ∧
    (createHandler clientCookies simpleURLString detectText ResponseWriter.fresh
        reqToken).w.sent.Values "Content-Type" = ["text/plain"] :=
  ⟨by decide,
    createHandler_copies_upstream_headers clientCookies simpleURLString detectText
      ResponseWriter.fresh reqToken _ (by decide) rfl rfl rfl (Or.inl (by decide))
      ("Set-Cookie", ["a=1", "b=2"]) (by decide) (by decide) (by decide),
    createHandler_copies_upstream_headers clientCookies simpleURLString detectText
      ResponseWriter.fresh reqToken _ (by decide) rfl rfl rfl (Or.inl (by decide))
      ("Content-Type", ["text/plain"]) (by decide) (by decide) (by decide)⟩

/-- X1. When the upstream response of a forwarded request has a final status
code (101, or 200 to 999) and a nil body, or a body that delivers no byte, the
status committed on a writer nothing was committed on is the upstream status
code. -/
theorem createHandler_relays_status_without_data (client : httpClient)
    (urlString : URL → String) (detectContentType : String → String)
    (w : ResponseWriter) (r : Request) (resp : Response)
    (hpath : HasPrefix r.URL.Path acmeChallengePath = true)
    (hdo : client r = .success resp) (hw : w.status = none)
    (hbody : resp.hasData = false) (hcode : finalStatus resp.StatusCode = true) :
    (createHandler client urlString detectContentType w r).w.status = some resp.StatusCode := by
  have h := (createHandler_forward_committed client urlString detectContentType w r resp hpath
    hdo hw (Or.inr hcode)).2.1
  rw [h, hbody]
  rfl

/-- The forward of `TestHandlerProxies` commits the upstream status 200. -/
theorem createHandler_relays_status_without_data_witness :
    HasPrefix reqToken.URL.Path acmeChallengePath = true ∧
    (createHandler clientOK simpleURLString detectText ResponseWriter.fresh reqToken).w.status
      = some 200 :=
  ⟨by decide,
    createHandler_relays_status_without_data clientOK simpleURLString detectText
      ResponseWriter.fresh reqToken { StatusCode := 200, Header := [], Body := none }
      (by decide) rfl rfl (by decide) (by decide)⟩

/-! ## The egress guard and the configuration: claims -/

theorem containedInSome_iff (ip : IP) (cidrs : List IPNet) :
    containedInSome ip cidrs = true ↔ ∃ cidr ∈ cidrs, cidr.Contains ip = true := by
  induction cidrs with
  | nil => simp [containedInSome]
  | cons c rest ih =>
    by_cases hc : c.Contains ip = true
    · simp [containedInSome, hc]
    · simp [containedInSome, hc, ih]

/-- C3. For an address that splits into host and port with the host an IP
literal, `checkBackend` returns no error exactly when some range of the
allow-list contains that IP, and the error `<address> is not within an allowed
backend cidr` when none does. -/
theorem checkBackend_permits_iff (address host port : String) (ip : IP) (cidrs : List IPNet)
    (hsplit : SplitHostPort address = .ok (host, port)) (hip : ParseIP host = some ip) :
    (checkBackend address cidrs = .ok () ↔ ∃ cidr ∈ cidrs, cidr.Contains ip = true) ∧
    ((∀ cidr ∈ cidrs, cidr.Contains ip = false) →
      checkBackend address cidrs = .error (address ++ " is not within an allowed backend cidr")) := by
  have hiff := containedInSome_iff ip cidrs
  constructor
  · by_cases hc : containedInSome ip cidrs = true
    · simp [checkBackend, hsplit, hip, hc, ← hiff]
    · simp [checkBackend, hsplit, hip, hc, ← hiff]
  · intro hnone
    have hc : ¬ containedInSome ip cidrs = true := by
      rw [hiff]
      rintro ⟨cidr, hmem, hcon⟩
      rw [hnone cidr hmem] at hcon
      cases hcon
    simp [checkBackend, hsplit, hip, hc]

/-- The allow-list `10.0.0.0/8`: `10.1.2.3:443` is permitted, `192.168.1.1:443` is refused. -/
theorem checkBackend_permits_iff_witness :
    ParseCIDR "10.0.0.0/8" = .ok ([0, 0, 0, 0, 0, 0, 0, 0, 0, 0, 255, 255, 10, 0, 0, 0], net10) ∧
    (checkBackend "10.1.2.3:443" [net10] = .ok () ↔
      ∃ cidr ∈ [net10], cidr.Contains [0, 0, 0, 0, 0, 0, 0, 0, 0, 0, 255, 255, 10, 1, 2, 3] = true) ∧
    checkBackend "10.1.2.3:443" [net10] = .ok () ∧
    checkBackend "192.168.1.1:443" [net10]
      = .error "192.168.1.1:443 is not within an allowed backend cidr" :=
  ⟨by decide,
    (checkBackend_permits_iff "10.1.2.3:443" "10.1.2.3" "443"
      [0, 0, 0, 0, 0, 0, 0, 0, 0, 0, 255, 255, 10, 1, 2, 3] [net10] (by decide) (by decide)).1,
    (checkBackend_permits_iff "10.1.2.3:443" "10.1.2.3" "443"
      [0, 0, 0, 0, 0, 0, 0, 0, 0, 0, 255, 255, 10, 1, 2, 3] [net10] (by decide) (by decide)).1.mpr
      ⟨net10, by decide, by decide⟩,
    (checkBackend_permits_iff "192.168.1.1:443" "192.168.1.1" "443"
      [0, 0, 0, 0, 0, 0, 0, 0, 0, 0, 255, 255, 192, 168, 1, 1] [net10] (by decide)
      (by decide)).2 (by decide)⟩

/-- C8. Whatever the allow-list, `checkBackend` returns the error of
`SplitHostPort` for an address that is no `host:port`, and the error `<host> is
not a valid IP address` for a `host:port` whose host is no IP literal; the
allow-list plays no part in either result, and the host is only parsed. -/
theorem checkBackend_rejects_malformed (address : String) (cidrs : List IPNet) :
    (∀ err, SplitHostPort address = .error err → checkBackend address cidrs = .error err) ∧
    (∀ host port, SplitHostPort address = .ok (host, port) → ParseIP host = none →
      checkBackend address cidrs = .error (host ++ " is not a valid IP address")) := by
  constructor
  · intro err hsplit
    simp [checkBackend, hsplit]
  · intro host port hsplit hip
    simp [checkBackend, hsplit, hip]

/-- An allow-list that holds every address still refuses a DNS name and a missing port. -/
theorem checkBackend_rejects_malformed_witness :
    checkBackend "example.com:443" netsAll = .error "example.com is not a valid IP address" ∧
    checkBackend "10.1.2.3" netsAll = .error "address 10.1.2.3: missing port in address" ∧
    checkBackend "" netsAll = .error "missing port in address" ∧
    checkBackend "10.1.2.3:443" netsAll = .ok () ∧
    checkBackend "[2001:db8::1]:443" netsAll = .ok () :=
  ⟨(checkBackend_rejects_malformed "example.com:443" netsAll).2 "example.com" "443"
      (by decide) (by decide),
    (checkBackend_rejects_malformed "10.1.2.3" netsAll).1 _ (by decide),
    (checkBackend_rejects_malformed "" netsAll).1 _ (by decide),
    by decide, by decide⟩

/-- C9. The `backend-cidr` callback returns the error of `net.ParseCIDR` and
leaves `backendCidr` as it was when its argument is no CIDR notation; for a
CIDR notation it returns no error and appends the one network parsed at the
end of `backendCidr`. -/
theorem backendCidrFlag_spec (arg : String) (backendCidr : List IPNet) :
    (∀ err, ParseCIDR arg = .error err →
      backendCidrFlag arg backendCidr = (.error err, backendCidr)) ∧
    (∀ ip ipnet, ParseCIDR arg = .ok (ip, ipnet) →
      backendCidrFlag arg backendCidr = (.ok (), backendCidr ++ [ipnet])) := by
  constructor
  · intro err h
    simp [backendCidrFlag, h]
  · intro ip ipnet h
    simp [backendCidrFlag, h]

/-- A prefix length of 33 and a missing prefix length are refused; `192.168.0.0/16` is appended. -/
theorem backendCidrFlag_spec_witness :
    backendCidrFlag "10.0.0.0/33" [net10]
      = (.error "invalid CIDR address: 10.0.0.0/33", [net10]) ∧
    backendCidrFlag "10.0.0.0" [net10] = (.error "invalid CIDR address: 10.0.0.0", [net10]) ∧
    backendCidrFlag "192.168.0.0/16" [net10]
      = (.ok (), [net10, { IP := [192, 168, 0, 0], Mask := [255, 255, 0, 0] }]) :=
  ⟨(backendCidrFlag_spec "10.0.0.0/33" [net10]).1 _ (by decide),
    (backendCidrFlag_spec "10.0.0.0" [net10]).1 _ (by decide),
    (backendCidrFlag_spec "192.168.0.0/16" [net10]).2
      [0, 0, 0, 0, 0, 0, 0, 0, 0, 0, 255, 255, 192, 168, 0, 0] _ (by decide)⟩

/-- C10. The dial function `createDialContext` returns dials with network
`tcp6` and the address it was given, whatever network it was asked for, and
the control hook of its dialer answers, for every address handed to it, what
`checkBackend` answers for that address and the allow-list given at creation. -/
theorem createDialContext_dials_tcp6 (backendCidrs : List IPNet) (network addr : String) :
    (createDialContext backendCidrs network addr).network = "tcp6" ∧
    (createDialContext backendCidrs network addr).addr = addr ∧
    (∀ network2, createDialContext backendCidrs network2 addr
      = createDialContext backendCidrs network addr) ∧
    (∀ hookNetwork address,
      (createDialContext backendCidrs network addr).dialer.Control hookNetwork address
        = checkBackend address backendCidrs) ∧
    (createDialContext backendCidrs network addr).dialer.Timeout = 5 := by
  refine ⟨rfl, rfl, fun _ => rfl, ?_, rfl⟩
  intro hookNetwork address
  simp only [createDialContext]
  cases checkBackend address backendCidrs <;> rfl

/-- X2. Parsing the `-backend-cidr` flags ends in an error, so before the server
is started, as soon as one value is no CIDR notation; when every value is one,
the allow-list afterwards is the one before followed by the networks of the
values, in order. -/
theorem parseBackendCidrFlags_spec (args : List String) (backendCidr : List IPNet) :
    ((∃ arg ∈ args, ∃ err, ParseCIDR arg = .error err) →
      ∃ err, parseBackendCidrFlags args backendCidr = .error err) ∧
    (∀ nets : List (IP × IPNet), args.map ParseCIDR = nets.map .ok →
      parseBackendCidrFlags args backendCidr = .ok (backendCidr ++ nets.map (·.2))) := by
  constructor
  · rintro ⟨arg, hmem, err, herr⟩
    induction args generalizing backendCidr with
    | nil => cases hmem
    | cons a rest ih =>
      cases ha : ParseCIDR a with
      | error e => exact ⟨e, by simp [parseBackendCidrFlags, backendCidrFlag, ha]⟩
      | ok v =>
        have hrest : arg ∈ rest := by
          rcases List.mem_cons.mp hmem with h | h
          · rw [h, ha] at herr
            cases herr
          · exact h
        obtain ⟨e, he⟩ := ih (backendCidr ++ [v.2]) hrest
        exact ⟨e, by simpa [parseBackendCidrFlags, backendCidrFlag, ha] using he⟩
  · intro nets hnets
    induction args generalizing backendCidr nets with
    | nil =>
      cases nets with
      | nil => simp [parseBackendCidrFlags]
      | cons n ns => simp at hnets
    | cons a rest ih =>
      cases nets with
      | nil => simp at hnets
      | cons n ns =>
        simp only [List.map_cons, List.cons.injEq] at hnets
        have := ih (backendCidr ++ [n.2]) ns hnets.2
        simpa [parseBackendCidrFlags, backendCidrFlag, hnets.1] using this

/-- Two valid flags give the two networks; a flag with a prefix length of 33 ends the parse. -/
theorem parseBackendCidrFlags_spec_witness :
    parseBackendCidrFlags ["10.0.0.0/8", "192.168.0.0/16"] []
      = .ok [net10, { IP := [192, 168, 0, 0], Mask := [255, 255, 0, 0] }] ∧
    ∃ err, parseBackendCidrFlags ["10.0.0.0/8", "10.0.0.0/33"] [] = .error err :=
  ⟨by decide,
    (parseBackendCidrFlags_spec ["10.0.0.0/8", "10.0.0.0/33"] []).1
      ⟨"10.0.0.0/33", by decide, "invalid CIDR address: 10.0.0.0/33", by decide⟩⟩

end Mlik
